import Mathlib

/-!
Shallow embedding of the spreadsheet parsing and query layer of the
basketball-league chatbot repository, together with theorems settling the
frozen claims about it.

Modelling conventions:
* a fetched grid is a `List (List String)`: the Sheets API returns rows of
  string cell values;
* a Python row dictionary (`{header: value}`) is an ordered association list
  `List (String × Option String)`; a value `none` is Python `None`, and a
  missing key looked up with `dict.get` also yields `none`;
* Python string operations (`strip`, `lower`, `upper`, `split`, `replace`,
  substring `in`, `int(...)`) are re-implemented structurally over `List Char`
  so that every definition evaluates inside the kernel;
* a Python function that can raise on some input is embedded with an `Option`
  or `Except` result (`none` / `.error` marking the raised exception).
-/

namespace Bball

/-- Value of one cell inside a parsed row dictionary: `some s` is a string
cell, `none` is Python `None`. -/
abbrev Cell := Option String

/-- Ordered association list standing for one Python row dictionary. -/
abbrev RowDict := List (String × Cell)

/-- Raw rectangular fetch result: a list of rows of string cells. -/
abbrev Grid := List (List String)

/-- Python `str.strip()` on a character list: drop whitespace from both ends. -/
def stripL (l : List Char) : List Char :=
  ((l.dropWhile Char.isWhitespace).reverse.dropWhile Char.isWhitespace).reverse

/-- Python `str.strip()`. -/
def pyStrip (s : String) : String := ⟨stripL s.data⟩

/-- Python `str.upper()` (per-character uppercase, as for the ASCII data of
this sheet). -/
def pyUpper (s : String) : String := ⟨s.data.map Char.toUpper⟩

/-- Python `str.lower()`. -/
def pyLower (s : String) : String := ⟨s.data.map Char.toLower⟩

/-- Empty-string test, which is also Python falsiness for a string. -/
def pyEmpty (s : String) : Bool := s.data.isEmpty

/-- Python `sep.split` helper on character lists, single-character separator
(the code only ever splits on `","`, `"/"`, `":"` and `" "`). -/
def splitChAux (sep : Char) : List Char → List Char → List (List Char)
  | [], acc => [acc.reverse]
  | c :: rest, acc =>
    if c == sep then acc.reverse :: splitChAux sep rest []
    else splitChAux sep rest (c :: acc)

/-- Python `s.split(sep)` for a one-character separator. -/
def splitCh (sep : Char) (s : String) : List String :=
  (splitChAux sep s.data []).map (fun l => (⟨l⟩ : String))

/-- Fuel-driven body of `str.replace` (fuel bounds the scan length, so the
recursion is structural). -/
def replaceAux (pat repl : List Char) : Nat → List Char → List Char
  | 0, l => l
  | _, [] => []
  | fuel + 1, c :: rest =>
    if pat.isPrefixOf (c :: rest) then
      repl ++ replaceAux pat repl fuel ((c :: rest).drop pat.length)
    else
      c :: replaceAux pat repl fuel rest

/-- Python `s.replace(pat, repl)` (for the nonempty patterns the code uses). -/
def pyReplace (s pat repl : String) : String :=
  ⟨replaceAux pat.data repl.data s.data.length s.data⟩

/-- Substring containment test on character lists, scanning every suffix. -/
def containsSub (pat : List Char) : List Char → Bool
  | [] => pat.isEmpty
  | c :: rest => pat.isPrefixOf (c :: rest) || containsSub pat rest

/-- Python `pat in s` for strings: contiguous-substring containment. -/
def strIn (pat s : String) : Bool := containsSub pat.data s.data

/-- Python `s.startswith(pre)`. -/
def strBeginsWith (s pre : String) : Bool := pre.data.isPrefixOf s.data

/-- Numeric value of a digit list, most significant first. -/
def digitsVal (l : List Char) : Nat :=
  l.foldl (fun acc c => acc * 10 + (c.toNat - 48)) 0

/-- Parse a nonempty all-digit character list to a natural number. -/
def natOfDigits (l : List Char) : Option Nat :=
  if l.isEmpty then none
  else if l.all Char.isDigit then some (digitsVal l) else none

/-- Python `int(s)` on an already-stripped string: optional sign followed by
decimal digits, anything else raises (here: `none`). -/
def pyInt (s : String) : Option Int :=
  match s.data with
  | '+' :: rest => (natOfDigits rest).map Int.ofNat
  | '-' :: rest => (natOfDigits rest).map (fun n => -(Int.ofNat n))
  | l => (natOfDigits l).map Int.ofNat

/-- Python `row.get(k)` on a row dictionary: value of the last binding of `k`
(dict construction lets a later duplicate header win), `none` when the key is
absent or bound to `None`. -/
def rowGet (r : RowDict) (k : String) : Cell :=
  match (r.filter (fun p => p.1 == k)).getLast? with
  | some p => p.2
  | none => none

/-- Python `(row.get(k) or "")`: absent, `None` and empty all become `""`. -/
def getStr (r : RowDict) (k : String) : String := (rowGet r k).getD ""

/-- Python truthiness of an optional-string argument (`None` and `""` are
falsy). -/
def optTruthy (o : Option String) : Bool :=
  match o with
  | none => false
  | some s => !pyEmpty s

/-- Text a cell contributes when read as a string (`none` has no text). -/
def cellText (c : Cell) : String := c.getD ""

/-- Python `not any(str(cell).strip() for cell in row)`: every cell of the raw
row is blank or whitespace. -/
def rowBlank (row : List String) : Bool :=
  row.all (fun c => (pyStrip c).data.isEmpty)

/-! ### Registration Parser — `form_responses_functions.py` -/

/-- Embeds `_get_division_column`: first header starting with
"Team Division(s)". -/
def getDivisionColumn (headers : List String) : Option String :=
  headers.find? (fun h => strBeginsWith h "Team Division(s)")

/-- Embeds `_parse_divisions`: split the raw division cell on commas, strip
the "*WAITING LIST*" marker and surrounding whitespace from each part, and
keep the nonempty parts. -/
def parseDivisions (raw : Cell) : List String :=
  match raw with
  | none => []
  | some s =>
    if pyEmpty s then []
    else
      (splitCh ',' s).filterMap (fun part =>
        let clean := pyStrip (pyReplace (pyStrip part) "*WAITING LIST*" "")
        if pyEmpty clean then none else some clean)

/-- Embeds `_is_waitlisted`: a falsy cell is not waitlisted, otherwise test
whether the upper-cased cell contains "WAITING LIST". -/
def isWaitlisted : Cell → Bool
  | none => false
  | some s => if pyEmpty s then false else strIn "WAITING LIST" (pyUpper s)

/-- Embeds `_normalize_phone` (identical in `form_responses_functions.py` and
`waitlist_functions.py`): keep only digits, empty results collapse to `None`. -/
def normalizePhone : Cell → Cell
  | none => none
  | some s =>
    if pyEmpty s then none
    else
      let digits : String := ⟨s.data.filter Char.isDigit⟩
      if pyEmpty digits then none else some digits

/-- Registration record produced by `get_teams_by_division`. -/
structure RegTeam where
  team_name : Cell
  division : List String
  is_waitlist : Bool
  contact_first_name : Cell
  contact_last_name : Cell
  contact_email : Cell
  contact_phone : Cell
  timestamp : Cell
deriving DecidableEq

/-- Embeds `get_teams_by_division`, taking the fetched header row and row
dictionaries of "Form Responses 1" as arguments. -/
def getTeamsByDivision (division : String) (includeWaitlist : Bool)
    (headers : List String) (rows : List RowDict) : List RegTeam :=
  match getDivisionColumn headers with
  | none => []
  | some divCol =>
    rows.filterMap (fun row =>
      let rawDivs := rowGet row divCol
      let divs := parseDivisions rawDivs
      if !(divs.contains division) then none
      else
        let waitlisted := isWaitlisted rawDivs
        if waitlisted && !includeWaitlist then none
        else
          some { team_name := rowGet row "Team Name", division := divs,
                 is_waitlist := waitlisted,
                 contact_first_name := rowGet row "Contact First Name",
                 contact_last_name := rowGet row "Contact Last Name",
                 contact_email := rowGet row "Email Address",
                 contact_phone := rowGet row "Contact Phone",
                 timestamp := rowGet row "Timestamp" })

/-- Waitlisted-team record produced by `get_waitlisted_teams`. -/
structure WaitTeam where
  team_name : Cell
  division : List String
  contact_first_name : Cell
  contact_last_name : Cell
  contact_email : Cell
  contact_phone : Cell
  timestamp : Cell
deriving DecidableEq

/-- Embeds `get_waitlisted_teams` (optional division filter, Python
truthiness on the argument). -/
def getWaitlistedTeams (division : Option String)
    (headers : List String) (rows : List RowDict) : List WaitTeam :=
  match getDivisionColumn headers with
  | none => []
  | some divCol =>
    rows.filterMap (fun row =>
      let rawDivs := rowGet row divCol
      if !isWaitlisted rawDivs then none
      else
        let divs := parseDivisions rawDivs
        if optTruthy division && !(divs.contains (division.getD "")) then none
        else
          some { team_name := rowGet row "Team Name", division := divs,
                 contact_first_name := rowGet row "Contact First Name",
                 contact_last_name := rowGet row "Contact Last Name",
                 contact_email := rowGet row "Email Address",
                 contact_phone := rowGet row "Contact Phone",
                 timestamp := rowGet row "Timestamp" })

/-- Stable insertion used by `sortDesc`: `x` goes in front of the first
element that is not strictly greater, so earlier equal elements stay first. -/
def insertDesc (gt : α → α → Bool) (x : α) : List α → List α
  | [] => [x]
  | y :: ys => if gt y x then y :: insertDesc gt x ys else x :: y :: ys

/-- Embeds Python `list.sort(key=..., reverse=True)`: a stable
descending-by-key sort (`gt` is the strict key comparison). -/
def sortDesc (gt : α → α → Bool) (l : List α) : List α :=
  l.foldr (insertDesc gt) []

/-- Embeds `list_divisions`: the sorted deduplicated division names
appearing in the registration sheet. -/
def listDivisions (headers : List String) (rows : List RowDict) : List String :=
  match getDivisionColumn headers with
  | none => []
  | some divCol =>
    let seen := ((rows.map (fun row => parseDivisions (rowGet row divCol))).flatten).dedup
    sortDesc (fun a b => decide (a < b)) seen

/-- Gregorian leap-year test, as used by `datetime`. -/
def isLeapYear (y : Nat) : Bool :=
  y % 4 == 0 && (y % 100 != 0 || y % 400 == 0)

/-- Day count of a month, as validated by `datetime`. -/
def daysInMonth (y m : Nat) : Nat :=
  if m == 2 then (if isLeapYear y then 29 else 28)
  else if m == 4 || m == 6 || m == 9 || m == 11 then 30
  else 31

/-- One numeric `strptime` field of at most `maxLen` digits. -/
def fieldNat (maxLen : Nat) (s : String) : Option Nat :=
  if s.data.length = 0 ∨ maxLen < s.data.length then none else natOfDigits s.data

/-- The `%Y` field: exactly four digits. -/
def yearNat (s : String) : Option Nat :=
  if s.data.length = 4 then natOfDigits s.data else none

/-- The `%m/%d/%Y` date part shared by both timestamp formats, with the
range checks `datetime` performs. -/
def parseDatePart (s : String) : Option (Nat × Nat × Nat) :=
  match splitCh '/' s with
  | [ms, ds, ys] =>
    match fieldNat 2 ms, fieldNat 2 ds, yearNat ys with
    | some m, some d, some y =>
      if 1 ≤ y ∧ 1 ≤ m ∧ m ≤ 12 ∧ 1 ≤ d ∧ d ≤ daysInMonth y m then some (y, m, d)
      else none
    | _, _, _ => none
  | _ => none

/-- Injective, order-preserving encoding of a valid datetime as a `Nat`,
standing in for the `datetime` value. -/
def encodeDT (y m d h mi sec : Nat) : Nat :=
  ((((y * 12 + (m - 1)) * 31 + (d - 1)) * 24 + h) * 60 + mi) * 60 + sec

/-- Embeds `_parse_timestamp`'s two `strptime` attempts, first
"%m/%d/%Y %H:%M:%S" and then "%m/%d/%Y %H:%M"; anything else is `None`. -/
def parseTimestampStr (s : String) : Option Nat :=
  match splitCh ' ' s with
  | [datePart, timePart] =>
    match parseDatePart datePart with
    | none => none
    | some (y, m, d) =>
      match splitCh ':' timePart with
      | [hs, mis, ss] =>
        match fieldNat 2 hs, fieldNat 2 mis, fieldNat 2 ss with
        | some h, some mi, some sec =>
          if h ≤ 23 ∧ mi ≤ 59 ∧ sec ≤ 59 then some (encodeDT y m d h mi sec)
          else none
        | _, _, _ => none
      | [hs, mis] =>
        match fieldNat 2 hs, fieldNat 2 mis with
        | some h, some mi =>
          if h ≤ 23 ∧ mi ≤ 59 then some (encodeDT y m d h mi 0) else none
        | _, _ => none
      | _ => none
  | _ => none

/-- Embeds `_parse_timestamp` on the raw Timestamp cell (falsy cell is
`None`). -/
def parseTimestampCell (value : Cell) : Option Nat :=
  match value with
  | none => none
  | some s => if pyEmpty s then none else parseTimestampStr s

/-- Strict comparison of the sort keys `(x[0] is None, x[0])` used by
`get_recent_registrations` (Python tuple order: `True > False`, datetimes by
chronology). -/
def tsKeyGt (a b : Option Nat × RowDict) : Bool :=
  match a.1, b.1 with
  | none, none => false
  | none, some _ => true
  | some _, none => false
  | some x, some y => decide (y < x)

/-- Embeds `get_recent_registrations`: attach parsed timestamps, sort with
`key=lambda x: (x[0] is None, x[0]), reverse=True`, and take the first
`limit` rows. -/
def getRecentRegistrations (limit : Nat) (rows : List RowDict) : List RowDict :=
  ((sortDesc tsKeyGt
      (rows.map (fun r => (parseTimestampCell (rowGet r "Timestamp"), r)))).map
    Prod.snd).take limit

/-- Embeds `search_registrations`: blank queries yield nothing, otherwise a
row matches when any target field contains the query case-insensitively. -/
def searchRegistrations (query : String) (fields : Option (List String))
    (rows : List RowDict) : List RowDict :=
  let q := pyLower (pyStrip query)
  if pyEmpty q then []
  else
    let fs := fields.getD
      ["Team Name", "Contact First Name", "Contact Last Name", "Email Address"]
    rows.filter (fun row => fs.any (fun f => strIn q (pyLower (pyStrip (getStr row f)))))

/-! ### Sheet Access Gateway — `sheets_client.py` -/

/-- Row dictionary built by `get_header_and_rows` (and by the Waitlist sheet
loader): the i-th header is bound to the row's i-th cell when `i < len(row)`
and to `None` otherwise. -/
def mkRecRowGuard (headers row : List String) : RowDict :=
  (List.range headers.length).map (fun i =>
    (headers.getD i "", if i < row.length then some (row.getD i "") else none))

/-- Embeds `GoogleSheetsClient.get_header_and_rows`: first fetched row is the
header, every later row becomes a row dictionary. -/
def getHeaderAndRows (values : Grid) : List String × List RowDict :=
  match values with
  | [] => ([], [])
  | headers :: rows => (headers, rows.map (mkRecRowGuard headers))

/-! ### Waitlist Sheet Parser — `waitlist_functions.py` -/

/-- Embeds `_load_waitlist_sheet`: header is row index 1, data from row
index 2 on, fully blank rows skipped. -/
def loadWaitlistSheet (values : Grid) : List String × List RowDict :=
  if values.length < 2 then ([], [])
  else
    let headers := values.getD 1 []
    let dataRows := values.drop 2
    (headers, (dataRows.filter (fun r => !rowBlank r)).map (mkRecRowGuard headers))

/-- Combined skip conditions of the `get_waitlist_for_division` loop: the
row's "Divison" cell is non-blank and equals the target case-insensitively. -/
def matchesDiv (target : String) (row : RowDict) : Bool :=
  let div := pyStrip (getStr row "Divison")
  !pyEmpty div && (pyLower (pyStrip div) == target)

/-- Loop of `get_waitlist_for_division`: a running counter position is
attached to each matching row. -/
def gwfdAux (target : String) (pos : Nat) : List RowDict → List (RowDict × Nat)
  | [] => []
  | row :: rest =>
    if matchesDiv target row then (row, pos + 1) :: gwfdAux target (pos + 1) rest
    else gwfdAux target pos rest

/-- Embeds `get_waitlist_for_division` over the loaded waitlist rows; the
second component of each entry is the attached 1-based `position`. -/
def getWaitlistForDivision (division : String) (rows : List RowDict) :
    List (RowDict × Nat) :=
  gwfdAux (pyLower (pyStrip division)) 0 rows

/-- Embeds `search_waitlist` (same shape as `search_registrations`, with the
waitlist default field set including the misspelled "Divison"). -/
def searchWaitlist (query : String) (fields : Option (List String))
    (rows : List RowDict) : List RowDict :=
  let q := pyLower (pyStrip query)
  if pyEmpty q then []
  else
    let fs := fields.getD ["Team Name", "First Name", "Last Name", "Email", "Divison"]
    rows.filter (fun row => fs.any (fun f => strIn q (pyLower (pyStrip (getStr row f)))))

/-- Per-division match of `is_candidate_on_any_waitlist` pulled from the
registration sheet. -/
structure FRMatch where
  division : String
  team_name : Cell
  contact_first_name : Cell
  contact_last_name : Cell
  email : Cell
  phone : Cell
deriving DecidableEq

/-- Match of `is_candidate_on_any_waitlist` pulled from the Waitlist sheet. -/
structure WLMatch where
  division : Cell
  team_name : Cell
  first_name : Cell
  last_name : Cell
  email : Cell
  phone : Cell
  notes : Cell
deriving DecidableEq

/-- Return shape of `is_candidate_on_any_waitlist`. -/
structure CandidateWaitlistStatus where
  query_first : Option String
  query_last : Option String
  query_email : Option String
  form_responses_matches : List FRMatch
  waitlist_sheet_matches : List WLMatch
  is_on_any_waitlist : Bool
deriving DecidableEq

/-- Python `if q and q != v: continue` filter of the candidate lookups. -/
def qMismatch (q : Option String) (v : String) : Bool :=
  optTruthy q && ((q.getD "") != v)

/-- Embeds `is_candidate_on_any_waitlist`: the all-absent argument check
raises before any sheet is consulted; otherwise matches are collected from
both sources. -/
def isCandidateOnAnyWaitlist (first_name last_name email : Option String)
    (formHeaders : List String) (formRows : List RowDict) (wlValues : Grid) :
    Except String CandidateWaitlistStatus :=
  if !(optTruthy first_name || optTruthy last_name || optTruthy email) then
    Except.error "At least one of first_name, last_name, or email must be provided"
  else
    let fnq := if optTruthy first_name then some (pyLower (pyStrip (first_name.getD ""))) else none
    let lnq := if optTruthy last_name then some (pyLower (pyStrip (last_name.getD ""))) else none
    let emq := if optTruthy email then some (pyLower (pyStrip (email.getD ""))) else none
    let frMatches := ((listDivisions formHeaders formRows).map (fun div =>
      (getWaitlistedTeams (some div) formHeaders formRows).filterMap (fun e =>
        let fn := pyLower (pyStrip (cellText e.contact_first_name))
        let ln := pyLower (pyStrip (cellText e.contact_last_name))
        let em := pyLower (pyStrip (cellText e.contact_email))
        if qMismatch fnq fn || qMismatch lnq ln || qMismatch emq em then none
        else
          some { division := div, team_name := e.team_name,
                 contact_first_name := e.contact_first_name,
                 contact_last_name := e.contact_last_name,
                 email := e.contact_email, phone := e.contact_phone }))).flatten
    let wlRows := (loadWaitlistSheet wlValues).2
    let wlMatches := wlRows.filterMap (fun row =>
      let fn := pyLower (pyStrip (getStr row "First Name"))
      let ln := pyLower (pyStrip (getStr row "Last Name"))
      let em := pyLower (pyStrip (getStr row "Email"))
      if qMismatch fnq fn || qMismatch lnq ln || qMismatch emq em then none
      else
        some { division := rowGet row "Divison", team_name := rowGet row "Team Name",
               first_name := rowGet row "First Name", last_name := rowGet row "Last Name",
               email := rowGet row "Email", phone := normalizePhone (rowGet row "Phone"),
               notes := rowGet row "Notes" })
    Except.ok { query_first := first_name, query_last := last_name, query_email := email,
                form_responses_matches := frMatches, waitlist_sheet_matches := wlMatches,
                is_on_any_waitlist := !(frMatches.isEmpty && wlMatches.isEmpty) }

/-! ### Summary ("Count") Sheet Parser — `count_functions.py` -/

/-- Embeds `_parse_int` (shared verbatim by `count_functions.py` and the
grade modules): strip, drop commas, then Python `int`. -/
def parseIntCell (value : Cell) : Option Int :=
  match value with
  | none => none
  | some v =>
    let s := pyReplace (pyStrip v) "," ""
    if pyEmpty s then none else pyInt s

/-- Parsed per-division summary row of the Count sheet. -/
structure DivSummary where
  division : String
  teams : Option Int
  needed_raw : Cell
  needed : Option Int
  needed_is_waitlist : Bool
  host_teams : Option Int
  is_full : Bool
deriving DecidableEq

/-- Embeds `get_division_summary`: first Count-sheet row whose "Division"
cell equals the argument case-insensitively, parsed into a `DivSummary`;
`none` when no row matches. -/
def getDivisionSummary (division : String) (rows : List RowDict) :
    Option DivSummary :=
  (rows.filterMap (fun row =>
    let div := pyStrip (getStr row "Division")
    if pyLower div == pyLower (pyStrip division) then
      let neededRaw := rowGet row "Needed"
      some { division := div,
             teams := parseIntCell (rowGet row "# of Teams"),
             needed_raw := neededRaw,
             needed := parseIntCell neededRaw,
             needed_is_waitlist :=
               match neededRaw with
               | some s => strIn "wait list" (pyLower s)
               | none => false,
             host_teams := parseIntCell (rowGet row "Host Teams"),
             is_full := pyUpper (pyStrip (getStr row "Unnamed: 4")) == "FULL" }
    else none)).head?

/-! ### 5th-Grade Block Parsers — `fifth_grade_functions.py` -/

/-- Cells of one fifth-grade record for the given header indices. The source
guard is `i < len(headers)` (not `len(row)`), so a data row shorter than the
header makes `row[i]` raise `IndexError`, embedded as `none`. -/
def mkEntries (headers row : List String) : List Nat → Option RowDict
  | [] => some []
  | i :: rest =>
    let v : Option Cell := if i < headers.length then (row[i]?).map some else some none
    match v, mkEntries headers row rest with
    | some c, some tailEntries => some ((headers.getD i "", c) :: tailEntries)
    | _, _ => none

/-- Row dictionary of the fifth-grade blocks, `none` when building it raises. -/
def mkRecHdrGuard (headers row : List String) : Option RowDict :=
  mkEntries headers row (List.range headers.length)

/-- Loop of `_load_5th_grade_boys_block`: stop at the first fully blank row. -/
def boysLoop (headers : List String) : Grid → Option (List RowDict)
  | [] => some []
  | row :: rest =>
    if rowBlank row then some []
    else
      match mkRecHdrGuard headers row, boysLoop headers rest with
      | some r, some rs => some (r :: rs)
      | _, _ => none

/-- Embeds `_load_5th_grade_boys_block` on a fetched grid. -/
def loadBoysBlock (values : Grid) : Option (List String × List RowDict) :=
  match values with
  | [] => some ([], [])
  | headers :: dataRows => (boysLoop headers dataRows).map (fun recs => (headers, recs))

/-- Label test of the girls block scan: first cell, stripped and lower-cased,
equals "5th grade girls" (an empty row is falsy). -/
def isGirlsLabelRow (row : List String) : Bool :=
  match row with
  | [] => false
  | c :: _ => pyLower (pyStrip c) == "5th grade girls"

/-- Index of the girls label row, scanning from the top. -/
def findGirlsLabelIdx (values : Grid) : Option Nat :=
  values.findIdx? isGirlsLabelRow

/-- Loop of `_load_5th_grade_girls_block`: fully blank rows are skipped
individually, every other row is consumed to the end of the range. -/
def girlsLoop (headers : List String) : Grid → Option (List RowDict)
  | [] => some []
  | row :: rest =>
    if rowBlank row then girlsLoop headers rest
    else
      match mkRecHdrGuard headers row, girlsLoop headers rest with
      | some r, some rs => some (r :: rs)
      | _, _ => none

/-- Embeds `_load_5th_grade_girls_block` on a fetched grid. -/
def loadGirlsBlock (values : Grid) : Option (List String × List RowDict) :=
  if values.isEmpty then some ([], [])
  else
    match findGirlsLabelIdx values with
    | none => some ([], [])
    | some k =>
      if values.length ≤ k + 1 then some ([], [])
      else
        let headers := values.getD (k + 1) []
        (girlsLoop headers (values.drop (k + 2))).map (fun recs => (headers, recs))

/-- Record builder shared by the specification side of C2: build one record
per row in order, failing when any single record build fails. -/
def recordsOf (headers : List String) : Grid → Option (List RowDict)
  | [] => some []
  | row :: rest =>
    match mkRecHdrGuard headers row, recordsOf headers rest with
    | some r, some rs => some (r :: rs)
    | _, _ => none

/-- Normalized fifth-grade bracket record of `list_5th_grade_boys_teams`. -/
structure GradeTeam where
  email : Cell
  first_name : Cell
  last_name : Cell
  phone : Cell
  team_name : Cell
  team_num : Option Int
deriving DecidableEq

/-- Embeds `list_5th_grade_boys_teams`: normalize each boys-block record. -/
def list5thBoysTeams (values : Grid) : Option (List GradeTeam) :=
  (loadBoysBlock values).map (fun p =>
    if p.2.isEmpty then []
    else
      p.2.map (fun row =>
        { email := rowGet row "Email", first_name := rowGet row "First Name",
          last_name := rowGet row "Last Name",
          phone := normalizePhone (rowGet row "Phone"),
          team_name := rowGet row "Team Name",
          team_num := parseIntCell (rowGet row "Team #") }))

/-- Embeds `get_5th_grade_boys_team_by_number`: first team whose "Team #"
equals the argument, Python `None` when no record matches. -/
def get5thBoysTeamByNumber (values : Grid) (n : Int) : Option (Option GradeTeam) :=
  (list5thBoysTeams values).map (fun teams => teams.find? (fun t => t.team_num == some n))

/-- Embeds `get_5th_grade_team_registration_details`: the division argument
is validated against the fixed pair before the registration sheet is used. -/
def get5thTeamRegDetails (team_name division : String) (includeWaitlist : Bool)
    (headers : List String) (rows : List RowDict) : Except String (List RegTeam) :=
  let d := pyStrip division
  if d == "5th Boys" || d == "5th Girls" then
    let regs := getTeamsByDivision d includeWaitlist headers rows
    let q := pyLower (pyStrip team_name)
    Except.ok (regs.filter (fun r => pyLower (pyStrip (cellText r.team_name)) == q))
  else
    Except.error "division must be \x275th Boys\x27 or \x275th Girls\x27"

/-- Concrete registration row with a parseable timestamp, for C4. -/
def c4RowNew : RowDict :=
  [("Timestamp", some "01/02/2024 10:00:00"), ("Team Name", some "Alpha")]

/-- Concrete registration row whose timestamp matches neither format, for C4. -/
def c4RowBad : RowDict :=
  [("Timestamp", some "pending"), ("Team Name", some "Beta")]

/-- Concrete Count-sheet row of the C6 scenario. -/
def c6Row : RowDict :=
  [("Division", some "3rd Boys"), ("# of Teams", some "10"),
   ("Needed", some "Wait List"), ("Host Teams", some "5"),
   ("Unnamed: 4", some "FULL")]

/-- Concrete fifth-grade grid with a boys block, a blank separator, a girls
label and a girls block containing an interior blank row, for the C2 witness. -/
def gridC2 : Grid :=
  [["Email", "Team #"], ["a@x.com", "1"], ["", " "],
   ["5th Grade Girls", ""], ["Email", "Team #"], ["g@x.com", "2"],
   ["", ""], ["h@x.com", "3"]]

/-- Specification-side helper for `containsSub`: it decides list infixhood. -/
theorem containsSub_iff (pat l : List Char) :
    containsSub pat l = true ↔ pat <:+: l := by
  induction l with
  | nil =>
    simp [containsSub, List.infix_nil, List.isEmpty_iff]
  | cons c rest ih =>
    simp [containsSub, ih, List.isPrefixOf_iff_prefix, List.infix_cons_iff]

/-- C1. The derived waitlist flag of a registration row is true exactly when
the raw division cell, upper-cased, contains the substring "WAITING LIST";
consequently a false flag means no letter-case variant of "WAITING LIST"
occurs in the raw cell. -/
theorem c1_waitlist_flag_iff_upper_contains (raw : Cell) :
    (isWaitlisted raw = true ↔ strIn "WAITING LIST" (pyUpper (cellText raw)) = true)
    ∧ (isWaitlisted raw = false →
        ∀ l : List Char, l <:+: (cellText raw).data →
          l.map Char.toUpper ≠ "WAITING LIST".data) := by
  have hmain : isWaitlisted raw = true ↔
      strIn "WAITING LIST" (pyUpper (cellText raw)) = true := by
    cases raw with
    | none =>
      simp only [isWaitlisted, cellText, Option.getD_none]
      decide
    | some s =>
      simp only [isWaitlisted, cellText, Option.getD_some]
      by_cases hs : pyEmpty s = true
      · have hnil : s.data = [] := by
          simpa [pyEmpty, List.isEmpty_iff] using hs
        simp only [hs, if_pos rfl]
        constructor
        · intro h; cases h
        · intro h
          rw [strIn, pyUpper, hnil] at h
          cases h
      · simp [hs]
  refine ⟨hmain, ?_⟩
  intro hfalse l hinf hmap
  have h1 : l.map Char.toUpper <:+: (cellText raw).data.map Char.toUpper :=
    List.IsInfix.map Char.toUpper hinf
  rw [hmap] at h1
  have h2 : strIn "WAITING LIST" (pyUpper (cellText raw)) = true := by
    rw [strIn, pyUpper]
    exact (containsSub_iff _ _).mpr h1
  have h3 : isWaitlisted raw = true := hmain.mpr h2
  rw [hfalse] at h3
  cases h3

/-- C1 witness: the theorem applied at a concrete marked cell. -/
theorem c1_waitlist_flag_witness :
    isWaitlisted (some "3rd Boys, *Waiting List*") = true :=
  (c1_waitlist_flag_iff_upper_contains (some "3rd Boys, *Waiting List*")).1.mpr
    (by decide)

/-- C5 counterexample: the claim's stated result "5738230287" for normalizing
"(573) 230-8287" is false; the code keeps the digits in order, giving
"5732308287". -/
theorem c5_phone_example_counterexample :
    normalizePhone (some "(573) 230-8287") ≠ some "5738230287" := by
  decide

/-- C5 amended. Phone normalization is idempotent on already-normalized
digits-only strings, and normalizing "(573) 230-8287" yields "5732308287". -/
theorem c5_phone_idempotent_amended :
    (∀ s : String, s.data ≠ [] → s.data.all Char.isDigit = true →
      normalizePhone (some s) = some s)
    ∧ normalizePhone (some "(573) 230-8287") = some "5732308287" := by
  constructor
  · intro s hne hdig
    have hempty : pyEmpty s = false := by
      simp [pyEmpty, List.isEmpty_iff, hne]
    have hfilter : s.data.filter Char.isDigit = s.data :=
      List.filter_eq_self.mpr (by simpa [List.all_eq_true] using hdig)
    simp [normalizePhone, hempty, hfilter]
  · decide

/-- C5 witness: idempotence applied to the concrete normalized number. -/
theorem c5_phone_idempotent_witness :
    normalizePhone (some "5732308287") = some "5732308287" :=
  c5_phone_idempotent_amended.1 "5732308287" (by decide) (by decide)

/-- Helper for C2: the boys loop keeps exactly the rows before the first
fully blank row. -/
theorem boysLoop_eq_takeWhile (headers : List String) (rows : Grid) :
    boysLoop headers rows = recordsOf headers (rows.takeWhile (fun r => !rowBlank r)) := by
  induction rows with
  | nil => rfl
  | cons row rest ih =>
    by_cases hb : rowBlank row
    · simp [boysLoop, recordsOf, List.takeWhile_cons, hb]
    · simp [boysLoop, recordsOf, List.takeWhile_cons, hb, ih]

/-- Helper for C2: the girls loop keeps exactly the non-blank rows of the
whole remaining range. -/
theorem girlsLoop_eq_filter (headers : List String) (rows : Grid) :
    girlsLoop headers rows = recordsOf headers (rows.filter (fun r => !rowBlank r)) := by
  induction rows with
  | nil => rfl
  | cons row rest ih =>
    by_cases hb : rowBlank row
    · simp [girlsLoop, List.filter_cons, hb, ih]
    · simp [girlsLoop, recordsOf, List.filter_cons, hb, ih]

/-- C2. Termination asymmetry of the fifth-grade block parsers: the boys
parse returns records for exactly the data rows preceding the first fully
blank row after its header row, while the girls parse (label found by the
case-insensitive scan) skips each fully blank row individually and consumes
every non-blank row through the remainder of the fetched range after its
header row. -/
theorem c2_block_termination_asymmetry :
    (∀ (headers : List String) (dataRows : Grid),
      loadBoysBlock (headers :: dataRows)
        = (recordsOf headers (dataRows.takeWhile (fun r => !rowBlank r))).map
            (fun recs => (headers, recs)))
    ∧ ∀ (values : Grid) (k : Nat),
        findGirlsLabelIdx values = some k →
        k + 1 < values.length →
        loadGirlsBlock values
          = (recordsOf (values.getD (k + 1) [])
              ((values.drop (k + 2)).filter (fun r => !rowBlank r))).map
              (fun recs => (values.getD (k + 1) [], recs)) := by
  constructor
  · intro headers dataRows
    simp [loadBoysBlock, boysLoop_eq_takeWhile]
  · intro values k hk hlen
    have hne : values.isEmpty = false := by
      cases values with
      | nil => simp [findGirlsLabelIdx] at hk
      | cons a l => rfl
    have hnle : ¬ values.length ≤ k + 1 := Nat.not_le.mpr hlen
    simp [loadGirlsBlock, hne, hk, hnle, girlsLoop_eq_filter]

/-- C2 witness: both characterizations applied to the concrete grid
`gridC2`, whose girls label sits at row index 3. -/
theorem c2_block_termination_witness :
    loadBoysBlock gridC2
      = (recordsOf ["Email", "Team #"]
          ((gridC2.drop 1).takeWhile (fun r => !rowBlank r))).map
          (fun recs => (["Email", "Team #"], recs))
    ∧ loadGirlsBlock gridC2
      = (recordsOf (gridC2.getD 4 [])
          ((gridC2.drop 5).filter (fun r => !rowBlank r))).map
          (fun recs => (gridC2.getD 4 [], recs)) :=
  ⟨c2_block_termination_asymmetry.1 ["Email", "Team #"] (gridC2.drop 1),
   c2_block_termination_asymmetry.2 gridC2 3 (by decide) (by decide)⟩

/-- Helper for C3: the position counter tags the matching rows, in order,
with consecutive values starting one above the incoming counter. -/
theorem gwfdAux_spec (target : String) (rows : List RowDict) : ∀ pos : Nat,
    (gwfdAux target pos rows).map Prod.fst = rows.filter (matchesDiv target)
    ∧ (gwfdAux target pos rows).map Prod.snd
        = List.range' (pos + 1) (rows.filter (matchesDiv target)).length := by
  induction rows with
  | nil => intro pos; simp [gwfdAux]
  | cons row rest ih =>
    intro pos
    by_cases h : matchesDiv target row
    · obtain ⟨h1, h2⟩ := ih (pos + 1)
      refine ⟨?_, ?_⟩
      · simp [gwfdAux, h, List.filter_cons, h1]
      · simp only [gwfdAux, h, if_pos, List.map_cons, List.filter_cons, h2,
          List.length_cons]
        rfl
    · obtain ⟨h1, h2⟩ := ih pos
      exact ⟨by simp [gwfdAux, h, List.filter_cons, h1],
             by simp [gwfdAux, h, List.filter_cons, h2]⟩

/-- C3. `get_waitlist_for_division` is deterministic over a fixed row
snapshot (it is a pure function of the rows), returns the matching rows in
sheet order, and attaches the positions 1, 2, ..., n with no gap or repeat,
where n is the number of rows matching the division. -/
theorem c3_waitlist_positions_deterministic_contiguous
    (division : String) (rows : List RowDict) :
    getWaitlistForDivision division rows = getWaitlistForDivision division rows
    ∧ (getWaitlistForDivision division rows).map Prod.fst
        = rows.filter (matchesDiv (pyLower (pyStrip division)))
    ∧ (getWaitlistForDivision division rows).map Prod.snd
        = List.range' 1 (rows.filter (matchesDiv (pyLower (pyStrip division)))).length :=
  ⟨rfl, (gwfdAux_spec (pyLower (pyStrip division)) rows 0).1,
   (gwfdAux_spec (pyLower (pyStrip division)) rows 0).2⟩

/-- C4. `get_recent_registrations` at a concrete two-row snapshot: the row
with the unparseable timestamp is returned FIRST, not last. The key
`(x[0] is None, x[0])` makes unparseable rows the largest keys, and
`reverse=True` puts the largest keys first, contradicting the claim (and the
code's own "putting None at the end" comment). -/
theorem c4_unparseable_timestamps_sort_first :
    getRecentRegistrations 10 [c4RowNew, c4RowBad] = [c4RowBad, c4RowNew]
    ∧ parseTimestampCell (rowGet c4RowBad "Timestamp") = none
    ∧ parseTimestampCell (rowGet c4RowNew "Timestamp")
        = some (encodeDT 2024 1 2 10 0 0) := by
  decide

/-- C6. The Count-sheet scenario row yields exactly the claimed summary:
teams 10, needed absent with the waitlist indicator set, host teams 5, and
the full flag set. -/
theorem c6_division_summary_scenario :
    getDivisionSummary "3rd Boys" [c6Row]
      = some { division := "3rd Boys", teams := some 10,
               needed_raw := some "Wait List", needed := none,
               needed_is_waitlist := true, host_teams := some 5,
               is_full := true } := by
  decide

/-- C7. Missing data yields empty or absent results in the enumerated query
paths: a grid without the girls label parses to an empty block, a division
matching no Count-sheet row gives `None`, and a team number matching no
record of the parsed boys list gives `None`. -/
theorem c7_missing_data_empty_not_error :
    (∀ values : Grid, findGirlsLabelIdx values = none →
      loadGirlsBlock values = some ([], []))
    ∧ (∀ (division : String) (rows : List RowDict),
        (∀ row ∈ rows,
          pyLower (pyStrip (getStr row "Division")) ≠ pyLower (pyStrip division)) →
        getDivisionSummary division rows = none)
    ∧ ∀ (values : Grid) (n : Int) (teams : List GradeTeam),
        list5thBoysTeams values = some teams →
        (∀ t ∈ teams, t.team_num ≠ some n) →
        get5thBoysTeamByNumber values n = some none := by
  refine ⟨?_, ?_, ?_⟩
  · intro values h
    by_cases he : values.isEmpty
    · simp [loadGirlsBlock, he]
    · simp [loadGirlsBlock, he, h]
  · intro division rows hall
    simp [getDivisionSummary]
    intro row hrow
    exact hall row hrow
  · intro values n teams h hnone
    rw [get5thBoysTeamByNumber, h, Option.map_some']
    have : teams.find? (fun t => t.team_num == some n) = none := by
      refine List.find?_eq_none.mpr ?_
      intro t ht
      simp [hnone t ht]
    rw [this]

/-- C7 witness: the three conclusions applied at concrete inputs. -/
theorem c7_missing_data_witness :
    loadGirlsBlock [["Email"]] = some ([], [])
    ∧ getDivisionSummary "9th Boys" [[("Division", some "3rd Boys")]] = none
    ∧ get5thBoysTeamByNumber [["Email", "Team #"], ["a@x.com", "1"]] 99 = some none :=
  ⟨c7_missing_data_empty_not_error.1 [["Email"]] (by decide),
   c7_missing_data_empty_not_error.2.1 "9th Boys" [[("Division", some "3rd Boys")]]
     (by decide),
   c7_missing_data_empty_not_error.2.2 [["Email", "Team #"], ["a@x.com", "1"]] 99
     [{ email := some "a@x.com", first_name := none, last_name := none,
        phone := none, team_name := none, team_num := some 1 }]
     (by decide) (by decide)⟩

/-- C8. Malformed query input is rejected with a descriptive error
independently of any sheet content (hence before any sheet access): an
unsupported stripped division makes `get_5th_grade_team_registration_details`
raise, and all-absent name/email arguments make `is_candidate_on_any_waitlist`
raise. -/
theorem c8_malformed_query_rejected :
    (∀ (team_name division : String) (includeWaitlist : Bool)
        (headers : List String) (rows : List RowDict),
      pyStrip division ≠ "5th Boys" → pyStrip division ≠ "5th Girls" →
      get5thTeamRegDetails team_name division includeWaitlist headers rows
        = Except.error "division must be \x275th Boys\x27 or \x275th Girls\x27")
    ∧ ∀ (formHeaders : List String) (formRows : List RowDict) (wlValues : Grid),
        isCandidateOnAnyWaitlist none none none formHeaders formRows wlValues
          = Except.error "At least one of first_name, last_name, or email must be provided" := by
  constructor
  · intro team_name division includeWaitlist headers rows h1 h2
    simp [get5thTeamRegDetails, h1, h2]
  · intro formHeaders formRows wlValues
    rfl

/-- C8 witness: the rejection applied at concrete malformed inputs. -/
theorem c8_malformed_query_witness :
    get5thTeamRegDetails "Eagles" "6th Boys" true [] []
      = Except.error "division must be \x275th Boys\x27 or \x275th Girls\x27" :=
  c8_malformed_query_rejected.1 "Eagles" "6th Boys" true [] [] (by decide) (by decide)

/-- C9. The gateway's header+records primitive is total on every grid: an
empty fetch yields empty headers and no records, otherwise the first row is
the header and each later row maps to a record whose i-th binding carries the
row's i-th cell when `i < len(row)` and `None` otherwise — short rows degrade
to absent fields instead of an out-of-bounds error. -/
theorem c9_gateway_total_short_rows_absent :
    getHeaderAndRows ([] : Grid) = ([], [])
    ∧ (∀ (headers : List String) (rows : Grid),
        getHeaderAndRows (headers :: rows) = (headers, rows.map (mkRecRowGuard headers)))
    ∧ ∀ (headers row : List String) (i : Nat), i < headers.length →
        (mkRecRowGuard headers row)[i]?
          = some (headers.getD i "",
              if i < row.length then some (row.getD i "") else none) := by
  refine ⟨rfl, fun _ _ => rfl, ?_⟩
  intro headers row i hi
  simp [mkRecRowGuard, List.getElem?_range hi]

/-- C9 witness: a row shorter than the header yields an absent field at the
missing column. -/
theorem c9_gateway_witness :
    (mkRecRowGuard ["A", "B"] ["x"])[1]? = some ("B", none) :=
  c9_gateway_total_short_rows_absent.2.2 ["A", "B"] ["x"] 1 (by decide)

/-- C10. A query that strips to the empty string makes both
`search_registrations` and `search_waitlist` return the empty list for every
row set and every fields argument. -/
theorem c10_blank_query_returns_nothing (query : String)
    (fields : Option (List String)) (regRows wlRows : List RowDict) :
    pyStrip query = "" →
    searchRegistrations query fields regRows = []
    ∧ searchWaitlist query fields wlRows = [] := by
  intro h
  have hq : pyEmpty (pyLower (pyStrip query)) = true := by
    rw [h]; decide
  exact ⟨by simp [searchRegistrations, hq], by simp [searchWaitlist, hq]⟩

/-- C10 witness: a whitespace-only query returns nothing even on a matching
row set. -/
theorem c10_blank_query_witness :
    searchRegistrations "   " none [[("Team Name", some "Falcons")]] = []
    ∧ searchWaitlist "   " none [[("Team Name", some "Falcons")]] = [] :=
  c10_blank_query_returns_nothing "   " none
    [[("Team Name", some "Falcons")]] [[("Team Name", some "Falcons")]] (by decide)

end Bball
